import Mathlib

/-!
Verification of the activation-code cloud servers.

The development shallowly embeds the two Python source files:

* `activation_server.py` (namespace `ActivationServer`, "Policy A"):
  an in-memory database object whose `verify_code` activates a code on
  first use and computes an expiry from the stored duration.
* `cloud_server.py` (namespace `CloudServer`, "Policy B"):
  a stateless pair of routes, a read-only `verify_code` and a mutating
  `activate_code`, over a JSON file reloaded on every request.

Modelling conventions:

* Wall-clock instants (`datetime.now()`) are integers (seconds); Python's
  `timedelta(days=d)` becomes `d * 86400`.  All `datetime.now()` calls
  inside a single request are modelled as the same instant, the `now`
  argument of the corresponding function.
* The persisted JSON file is a value of the database type; a file that is
  absent or unreadable is `Option.none`.  A boolean `saveOk` argument
  models whether a file write raises (`false`) or succeeds (`true`).
* Strings, hashing (SHA-256), and HMAC-SHA256 are computed exactly;
  the hash and signature functions below implement FIPS 180-4 / RFC 2104
  as Python's `hashlib` / `hmac` do, on UTF-8 encoded input.
* Python exceptions escaping to a route's `except` handler are modelled
  with `Except String`; the carried string models `str(e)` and is not
  relied upon by any theorem.
-/

set_option maxRecDepth 8000

/-! ### Bytes, SHA-256 and HMAC-SHA256 (the embedding of `hashlib` / `hmac`) -/

/-- UTF-8 encoding of one character, as Python's `str.encode()` produces. -/
def utf8Enc (c : Char) : List Nat :=
  let n := c.toNat
  if n < 128 then [n]
  else if n < 2048 then [192 + n / 64, 128 + n % 64]
  else if n < 65536 then [224 + n / 4096, 128 + (n / 64) % 64, 128 + n % 64]
  else [240 + n / 262144, 128 + (n / 4096) % 64, 128 + (n / 64) % 64, 128 + n % 64]

/-- UTF-8 bytes of a string (Python `s.encode()`). -/
def strBytes (s : String) : List Nat := s.data.flatMap utf8Enc

def M32 : Nat := 4294967296

def add32 (a b : Nat) : Nat := (a + b) % M32

def not32 (a : Nat) : Nat := 4294967295 - a

def rotr (n a : Nat) : Nat := a / 2 ^ n + a % 2 ^ n * 2 ^ (32 - n)

def shr (n a : Nat) : Nat := a / 2 ^ n

def ssig0 (x : Nat) : Nat := rotr 7 x ^^^ rotr 18 x ^^^ shr 3 x

def ssig1 (x : Nat) : Nat := rotr 17 x ^^^ rotr 19 x ^^^ shr 10 x

def bsig0 (x : Nat) : Nat := rotr 2 x ^^^ rotr 13 x ^^^ rotr 22 x

def bsig1 (x : Nat) : Nat := rotr 6 x ^^^ rotr 11 x ^^^ rotr 25 x

def chF (x y z : Nat) : Nat := x &&& y ^^^ not32 x &&& z

def majF (x y z : Nat) : Nat := x &&& y ^^^ x &&& z ^^^ y &&& z

/-- The eight 32-bit working registers of SHA-256. -/
structure Hash8 where
  h0 : Nat
  h1 : Nat
  h2 : Nat
  h3 : Nat
  h4 : Nat
  h5 : Nat
  h6 : Nat
  h7 : Nat
deriving DecidableEq

def sha256H0 : Hash8 :=
  ⟨1779033703, 3144134277, 1013904242, 2773480762,
   1359893119, 2600822924, 528734635, 1541459225⟩

def sha256K : List Nat :=
  [1116352408, 1899447441, 3049323471, 3921009573, 961987163, 1508970993,
   2453635748, 2870763221, 3624381080, 310598401, 607225278, 1426881987,
   1925078388, 2162078206, 2614888103, 3248222580, 3835390401, 4022224774,
   264347078, 604807628, 770255983, 1249150122, 1555081692, 1996064986,
   2554220882, 2821834349, 2952996808, 3210313671, 3336571891, 3584528711,
   113926993, 338241895, 666307205, 773529912, 1294757372, 1396182291,
   1695183700, 1986661051, 2177026350, 2456956037, 2730485921, 2820302411,
   3259730800, 3345764771, 3516065817, 3600352804, 4094571909, 275423344,
   430227734, 506948616, 659060556, 883997877, 958139571, 1322822218,
   1537002063, 1747873779, 1955562222, 2024104815, 2227730452, 2361852424,
   2428436474, 2756734187, 3204031479, 3329325298]

/-- One extension step of the SHA-256 message schedule. -/
def scheduleStep (w : List Nat) : List Nat :=
  let n := w.length
  w ++ [add32 (add32 (ssig1 (w.getD (n - 2) 0)) (w.getD (n - 7) 0))
              (add32 (ssig0 (w.getD (n - 15) 0)) (w.getD (n - 16) 0))]

def iterN {α : Type} (f : α → α) : Nat → α → α
  | 0, a => a
  | k + 1, a => iterN f k (f a)

/-- Extend 16 schedule words to 64. -/
def fullSchedule (w16 : List Nat) : List Nat := iterN scheduleStep 48 w16

def compressRound (s : Hash8) (k : Nat) (w : Nat) : Hash8 :=
  let t1 := add32 (add32 (add32 s.h7 (bsig1 s.h4)) (add32 (chF s.h4 s.h5 s.h6) k)) w
  let t2 := add32 (bsig0 s.h0) (majF s.h0 s.h1 s.h2)
  ⟨add32 t1 t2, s.h0, s.h1, s.h2, add32 s.h3 t1, s.h4, s.h5, s.h6⟩

def compressBlock (s : Hash8) (block : List Nat) : Hash8 :=
  let w := fullSchedule block
  let f := (sha256K.zip w).foldl (fun st p => compressRound st p.1 p.2) s
  ⟨add32 s.h0 f.h0, add32 s.h1 f.h1, add32 s.h2 f.h2, add32 s.h3 f.h3,
   add32 s.h4 f.h4, add32 s.h5 f.h5, add32 s.h6 f.h6, add32 s.h7 f.h7⟩

/-- Big-endian 32-bit words from a byte list whose length is a multiple of 4. -/
def toWords : List Nat → List Nat
  | b0 :: b1 :: b2 :: b3 :: rest => (((b0 * 256 + b1) * 256 + b2) * 256 + b3) :: toWords rest
  | _ => []

def be64 (n : Nat) : List Nat :=
  [n / 2 ^ 56 % 256, n / 2 ^ 48 % 256, n / 2 ^ 40 % 256, n / 2 ^ 32 % 256,
   n / 2 ^ 24 % 256, n / 2 ^ 16 % 256, n / 2 ^ 8 % 256, n % 256]

/-- SHA-256 padding: `0x80`, zeros to 56 mod 64, then the 64-bit bit length. -/
def shaPad (msg : List Nat) : List Nat :=
  let L := msg.length
  msg ++ [128] ++ List.replicate ((64 - (L + 9) % 64) % 64) 0 ++ be64 (L * 8)

/-- Split a word list into chunks of 16, with explicit fuel so that the
recursion is structural (and hence reduces in the kernel). -/
def chunk16F : Nat → List Nat → List (List Nat)
  | 0, _ => []
  | _, [] => []
  | fuel + 1, w :: rest => (w :: rest.take 15) :: chunk16F fuel (rest.drop 15)

def chunk16 (ws : List Nat) : List (List Nat) := chunk16F ws.length ws

def sha256Words (msg : List Nat) : Hash8 :=
  (chunk16 (toWords (shaPad msg))).foldl compressBlock sha256H0

def wordBytes (w : Nat) : List Nat :=
  [w / 16777216 % 256, w / 65536 % 256, w / 256 % 256, w % 256]

/-- SHA-256 digest (32 bytes) of a byte list. -/
def sha256Bytes (msg : List Nat) : List Nat :=
  let h := sha256Words msg
  wordBytes h.h0 ++ wordBytes h.h1 ++ wordBytes h.h2 ++ wordBytes h.h3 ++
  wordBytes h.h4 ++ wordBytes h.h5 ++ wordBytes h.h6 ++ wordBytes h.h7

/-- Lower-case hex digit, as Python's `hexdigest` uses. -/
def hexDigit (n : Nat) : Char := if n < 10 then Char.ofNat (48 + n) else Char.ofNat (87 + n)

def bytesHexChars (bs : List Nat) : List Char :=
  bs.flatMap (fun b => [hexDigit (b / 16), hexDigit (b % 16)])

/-- `bytes.hex()` / `.hexdigest()` rendering of a byte list. -/
def hexdigestStr (bs : List Nat) : String := ⟨bytesHexChars bs⟩

/-- `hashlib.sha256(s.encode()).hexdigest()`. -/
def sha256HexOfString (s : String) : String := hexdigestStr (sha256Bytes (strBytes s))

/-- HMAC-SHA256 (RFC 2104) over bytes, exactly as Python's `hmac.new(key, msg,
hashlib.sha256)` computes it (block size 64). -/
def hmacSha256Bytes (key msg : List Nat) : List Nat :=
  let k1 := if key.length > 64 then sha256Bytes key else key
  let k2 := k1 ++ List.replicate (64 - k1.length) 0
  let ip := k2.map (fun b => b ^^^ 54)
  let op := k2.map (fun b => b ^^^ 92)
  sha256Bytes (op ++ sha256Bytes (ip ++ msg))

/-! ### Python string helpers used by both servers -/

/-- ASCII whitespace, the characters Python's `str.strip()` and `int()`
remove at the ends of ASCII input. -/
def isPySpace (c : Char) : Bool :=
  c.toNat == 32 || c.toNat == 9 || c.toNat == 10 || c.toNat == 13 ||
  c.toNat == 11 || c.toNat == 12

/-- Python `s.strip()` (on ASCII whitespace). -/
def pyStrip (s : String) : String :=
  ⟨((s.data.dropWhile isPySpace).reverse.dropWhile isPySpace).reverse⟩

/-- Python `s.upper()` (ASCII case mapping). -/
def pyUpper (s : String) : String := ⟨s.data.map Char.toUpper⟩

/-- Python `s[1:]`. -/
def strTail (s : String) : String := ⟨s.data.drop 1⟩

/-- Python `s[:n]`. -/
def strTake (n : Nat) (s : String) : String := ⟨s.data.take n⟩

/-- Python `s.startswith('D')` (codepoint 68). -/
def startsWithD (s : String) : Bool :=
  match s.data with
  | c :: _ => c.toNat == 68
  | [] => false

/-- Python `code.split('-')` at character level; 45 is the codepoint of
the dash delimiter. -/
def splitCharsDash : List Char → List (List Char)
  | [] => [[]]
  | c :: rest =>
    let r := splitCharsDash rest
    if c.toNat == 45 then [] :: r
    else
      match r with
      | h :: t => (c :: h) :: t
      | [] => [[c]]

/-- Python `code.split('-')`. -/
def splitOnDash (s : String) : List String := (splitCharsDash s.data).map (fun l => ⟨l⟩)

/-- The `parts = code.split('-'); if len(parts) != 5 ... ; a, b, c, d, e = parts`
idiom shared by both servers: `none` exactly when the field count is not 5. -/
def parse5 (code : String) : Option (String × String × String × String × String) :=
  match splitOnDash code with
  | [a, b, c, d, e] => some (a, b, c, d, e)
  | _ => none

/-- Python dict membership/index (`h in d`, `d[h]`) over an association list. -/
def lookupKV {β : Type} (k : String) : List (String × β) → Option β
  | [] => none
  | (k0, v) :: rest => if k0 = k then some v else lookupKV k rest

/-- Python dict assignment `d[h] = v` (updates in place, keeps insertion order). -/
def setKV {β : Type} (k : String) (v : β) : List (String × β) → List (String × β)
  | [] => [(k, v)]
  | (k0, v0) :: rest => if k0 = k then (k, v) :: rest else (k0, v0) :: setKV k v rest

/-- One digit-or-underscore tail of a Python integer literal: every
underscore (codepoint 95) must be followed by a digit. -/
def pyDigitsRest : List Char → Bool
  | [] => true
  | c :: cs =>
    if c.toNat == 95 then
      match cs with
      | [] => false
      | c2 :: cs2 => c2.isDigit && pyDigitsRest cs2
    else c.isDigit && pyDigitsRest cs

/-- Digit run acceptable to Python's `int()` after the optional sign:
nonempty, starts with a digit, underscores only between digits. -/
def pyDigitsOk : List Char → Bool
  | [] => false
  | c :: cs => c.isDigit && pyDigitsRest cs

/-- Numeric value of a digit run, ignoring underscores. -/
def digitsVal (cs : List Char) : Nat :=
  (cs.filter (fun c => c.toNat != 95)).foldl (fun a c => a * 10 + (c.toNat - 48)) 0

/-- Python's `int(s)` on ASCII input: strips ASCII whitespace, allows one
leading `+` (codepoint 43) or `-` (codepoint 45), then a digit run with
single interior underscores.  `none` models the `ValueError` raised
otherwise.  (Non-ASCII decimal digits, which CPython also accepts, are
outside this model; theorems that depend on a failing `int()` carry an
ASCII hypothesis.) -/
def pyInt (s : String) : Option Int :=
  let cs := ((s.data.dropWhile isPySpace).reverse.dropWhile isPySpace).reverse
  match cs with
  | [] => none
  | c :: rest =>
    if c.toNat == 43 then
      if pyDigitsOk rest then some ((digitsVal rest : Nat) : Int) else none
    else if c.toNat == 45 then
      if pyDigitsOk rest then some (-((digitsVal rest : Nat) : Int)) else none
    else if pyDigitsOk (c :: rest) then some ((digitsVal (c :: rest) : Nat) : Int) else none

/-- The `data.get('code', '').strip().upper()` normalization both route
handlers apply to the presented code. -/
def pyNormalize (s : String) : String := pyUpper (pyStrip s)

/-- `generate_signature` of both source files (`activation_server.py`
lines 165-171, `cloud_server.py` lines 52-58):
`hmac.new(SECRET_KEY.encode(), data.encode(), hashlib.sha256).hexdigest()[:16].upper()`.
The secret is a parameter (`activation_server.py` reads it from the
environment; `cloud_server.py` hard-codes it). -/
def generate_signature (secret : String) (data : String) : String :=
  pyUpper (strTake 16 (hexdigestStr (hmacSha256Bytes (strBytes secret) (strBytes data))))

/-! ### Policy A: `activation_server.py` -/

namespace ActivationServer

/-- One record of `self.db["codes"]` (`add_code`, lines 71-85). -/
structure CodeInfo where
  code : String
  type : String
  duration_days : Int
  notes : String
  generated_at : Int
  activated : Bool
  activated_at : Option Int
  device_id : Option String
deriving DecidableEq

/-- One entry of `self.db["logs"]` (`add_log`, lines 148-158); the
`details` dict of a verify log has keys code/result/message. -/
structure LogEntry where
  timestamp : Int
  action : String
  log_code : String
  log_result : Bool
  log_message : String
deriving DecidableEq

/-- The JSON database `{"codes": ..., "logs": ...}`. -/
structure Db where
  codes : List (String × CodeInfo)
  logs : List LogEntry
deriving DecidableEq

/-- The `ActivationDatabase` object together with the persisted file:
`db` is the in-memory dict, `saved` the content of `cloud_activation_db.json`. -/
structure ServerState where
  db : Db
  saved : Db
deriving DecidableEq

/-- The JSON body returned by `verify_code`; keys absent from a given
return statement are `none`. -/
structure VerifyResult where
  valid : Bool
  message : String
  type : Option String := none
  activated_at : Option Int := none
  expire_at : Option Int := none
deriving DecidableEq

/-- `save_database` (lines 61-69): writes the in-memory dict to the file,
but catches and logs any exception, so a failed write (`saveOk = false`)
leaves the file as it was and the caller never notices. -/
def save_database (saveOk : Bool) (st : ServerState) : ServerState :=
  if saveOk then { st with saved := st.db } else st

/-- `ActivationDatabase.verify_code` (lines 87-131).  A record that is
`activated` with `activated_at = None` would make `datetime.fromisoformat`
raise; that is the `.error` case. -/
def verify_code (st : ServerState) (saveOk : Bool) (now : Int) (code : String) :
    Except String (VerifyResult × ServerState) :=
  let code_hash := sha256HexOfString code
  match lookupKV code_hash st.db.codes with
  | none => .ok ({ valid := false, message := "激活码不存在" }, st)
  | some code_info =>
    if code_info.activated then
      match code_info.activated_at with
      | none => .error "fromisoformat: argument must be str"
      | some activated_at =>
        let expire_at := activated_at + code_info.duration_days * 86400
        if now > expire_at then
          .ok ({ valid := false, message := "激活码已过期", type := some code_info.type }, st)
        else
          .ok ({ valid := true, message := "激活码有效", type := some code_info.type,
                 activated_at := some activated_at, expire_at := some expire_at }, st)
    else
      let code_info2 := { code_info with activated := true, activated_at := some now }
      let st2 := save_database saveOk
        { st with db := { st.db with codes := setKV code_hash code_info2 st.db.codes } }
      let expire_at := now + code_info.duration_days * 86400
      .ok ({ valid := true,
             message := "激活成功！(" ++ code_info.type ++ ", 有效期" ++
                        toString code_info.duration_days ++ "天)",
             type := some code_info.type, activated_at := some now,
             expire_at := some expire_at }, st2)

/-- `add_log` (lines 148-158): append, keep the last 1000 entries, save. -/
def add_log (st : ServerState) (saveOk : Bool) (now : Int)
    (action : String) (lcode : String) (lresult : Bool) (lmessage : String) : ServerState :=
  let logs2 := st.db.logs ++ [⟨now, action, lcode, lresult, lmessage⟩]
  let logs3 := if logs2.length > 1000 then logs2.drop (logs2.length - 1000) else logs2
  save_database saveOk { st with db := { st.db with logs := logs3 } }

/-- The `/api/verify` route `verify_activation` (lines 223-276): normalize,
reject empty input (HTTP 400), check the field count, check the signature,
then consult the database and log the attempt.  The result is
((status, body), new server state). -/
def verify_activation (secret : String) (st : ServerState) (saveOk : Bool) (now : Int)
    (rawCode : String) : (Nat × VerifyResult) × ServerState :=
  let code := pyNormalize rawCode
  if code = "" then ((400, { valid := false, message := "激活码不能为空" }), st)
  else
    match parse5 code with
    | none => ((200, { valid := false, message := "激活码格式错误" }), st)
    | some (pfx, type_code, timestamp, salt, signature) =>
      let sign_data := pfx ++ "-" ++ type_code ++ "-" ++ timestamp ++ "-" ++ salt
      let expected_signature := generate_signature secret sign_data
      if signature ≠ expected_signature then
        ((200, { valid := false, message := "激活码签名验证失败" }), st)
      else
        match verify_code st saveOk now code with
        | .error e => ((500, { valid := false, message := "服务器错误: " ++ e }), st)
        | .ok (result, st2) =>
          let st3 := add_log st2 saveOk now "verify" (strTake 10 code ++ "...")
                       result.valid result.message
          ((200, result), st3)

end ActivationServer

/-! ### Policy B: `cloud_server.py` -/

namespace CloudServer

/-- The hard-coded shared secret (line 20). -/
def SECRET_KEY : String := "SIQIU-2025-AI-ASSISTANT-SECRET-KEY-PLEASE-CHANGE"

/-- One record of `db["codes"]`.  The Python dicts are built with varying
key sets (`activate_code` lines 163-170, `admin_generate` lines 227-237),
and are read back with `.get`, so each optional key is an `Option`. -/
structure CodeInfo where
  type : String
  code : Option String := none
  created_at : Option Int := none
  used : Option Bool := none
  used_at : Option Int := none
  used_by : Option String := none
  days : Option Int := none
deriving DecidableEq

/-- The `codes` table of the JSON database (the other top-level keys,
`created_at`/`version`, are never read by the routes modelled here). -/
structure Db where
  codes : List (String × CodeInfo)
deriving DecidableEq

/-- `load_database` (lines 35-41): `try: json.load(...) except: return
empty`.  An absent or unreadable file (`none`) is silently replaced by an
empty database. -/
def load_database (file : Option Db) : Db := file.getD { codes := [] }

/-- `hash_code` (lines 48-50). -/
def hash_code (code : String) : String := sha256HexOfString code

/-- The JSON body of `/api/verify`. -/
structure Resp where
  valid : Bool
  message : String
  type : Option String := none
  days : Option Int := none
deriving DecidableEq

/-- Rendering of `code_info.get('used_at', '未知')` inside the
already-used message (line 102); `none` covers the missing key. -/
def usedAtStr (t : Option Int) : String :=
  match t with
  | some v => toString v
  | none => "未知"

/-- The `/api/verify` route `verify_code` (lines 60-129): normalize,
reject empty input, parse the 5 fields, check the signature, load the
database, reject an already-used record, then decode the edition token
("P000" is permanent, "D"+int is a trial; `int()` failure raises, caught
as a 500; any other token is a 400 type error).  The route never writes,
so it returns the file unchanged as the second component. -/
def verify_code (file : Option Db) (rawCode : String) : (Nat × Resp) × Option Db :=
  let code := pyNormalize rawCode
  if code = "" then ((400, { valid := false, message := "激活码不能为空" }), file)
  else
    match parse5 code with
    | none => ((400, { valid := false, message := "激活码格式错误" }), file)
    | some (pfx, type_code, timestamp, salt, signature) =>
      let sign_data := pfx ++ "-" ++ type_code ++ "-" ++ timestamp ++ "-" ++ salt
      let expected_signature := generate_signature SECRET_KEY sign_data
      if signature ≠ expected_signature then
        ((400, { valid := false, message := "激活码无效（签名验证失败）" }), file)
      else
        let db := load_database file
        let code_hash := hash_code code
        let usedHit : Option (Nat × Resp) :=
          match lookupKV code_hash db.codes with
          | some code_info =>
            if code_info.used.getD false then
              some (400, { valid := false,
                           message := "激活码已被使用（使用时间：" ++
                                      usedAtStr code_info.used_at ++ "）" })
            else none
          | none => none
        match usedHit with
        | some r => (r, file)
        | none =>
          let decoded : Except String (Option (String × Int)) :=
            if type_code = "P000" then .ok (some ("永久", 0))
            else if startsWithD type_code then
              match pyInt (strTail type_code) with
              | some days => .ok (some ("试用", days))
              | none => .error ("invalid literal for int() with base 10: \x27" ++
                                strTail type_code ++ "\x27")
            else .ok none
          match decoded with
          | .error e => ((500, { valid := false, message := "验证失败：" ++ e }), file)
          | .ok none => ((400, { valid := false, message := "激活码类型错误" }), file)
          | .ok (some (code_type, days)) =>
            ((200, { valid := true, type := some code_type, days := some days,
                     message := if days = 0 then "永久激活码"
                                else toString days ++ "天试用激活码" }), file)

/-- The JSON body of `/api/activate`. -/
structure ActResp where
  success : Bool
  message : String
deriving DecidableEq

/-- A fixed string standing for `str(e)` of a file-write error (the exact
text is irrelevant to every theorem below). -/
def saveErr : String := "[Errno 5] Input/output error"

/-- The `/api/activate` route `activate_code` (lines 131-188): normalize,
reject empty input, load the database; if the code has no record and has 5
fields, create an unused record decoded from the edition token (a bad
"D" token makes `int()` raise, caught as a 500); then unconditionally mark
the record used with the current time and caller address and save.  If the
code has no record and does not have 5 fields, no record is created and
the subsequent `db["codes"][code_hash]` raises `KeyError` (a 500).
A failed save (`saveOk = false`) also raises and leaves the file as it
was. -/
def activate_code (file : Option Db) (saveOk : Bool) (now : Int) (remote_addr : String)
    (rawCode : String) : (Nat × ActResp) × Option Db :=
  let code := pyNormalize rawCode
  if code = "" then ((400, { success := false, message := "激活码不能为空" }), file)
  else
    let db := load_database file
    let code_hash := hash_code code
    let created : Except String Db :=
      match lookupKV code_hash db.codes with
      | some _ => .ok db
      | none =>
        match parse5 code with
        | some (_, type_code, _, _, _) =>
          let decoded : Except String (String × Int) :=
            if type_code = "P000" then .ok ("永久", 0)
            else if startsWithD type_code then
              match pyInt (strTail type_code) with
              | some days => .ok ("试用", days)
              | none => .error ("invalid literal for int() with base 10: \x27" ++
                                strTail type_code ++ "\x27")
            else .ok ("未知", 0)
          match decoded with
          | .error e => .error e
          | .ok (code_type, days) =>
            let base : CodeInfo :=
              { type := code_type, code := some code, created_at := some now,
                used := some false }
            let rec0 := if days > 0 then { base with days := some days } else base
            .ok { codes := setKV code_hash rec0 db.codes }
        | none => .ok db
    match created with
    | .error e => ((500, { success := false, message := "标记失败：" ++ e }), file)
    | .ok db2 =>
      match lookupKV code_hash db2.codes with
      | none =>
        ((500, { success := false, message := "标记失败：\x27" ++ code_hash ++ "\x27" }), file)
      | some code_info =>
        let code_info2 := { code_info with
          used := some true, used_at := some now, used_by := some remote_addr }
        let db3 : Db := { codes := setKV code_hash code_info2 db2.codes }
        if saveOk then ((200, { success := true, message := "激活码已标记为使用" }), some db3)
        else ((500, { success := false, message := "标记失败：" ++ saveErr }), file)

end CloudServer

deriving instance DecidableEq for Except

/-! ### Helper lemmas -/

theorem lookupKV_setKV_self {β : Type} (k : String) (v : β) (l : List (String × β)) :
    lookupKV k (setKV k v l) = some v := by
  induction l with
  | nil => simp [setKV, lookupKV]
  | cons hd tl ih =>
    obtain ⟨k0, v0⟩ := hd
    by_cases h : k0 = k
    · simp [setKV, h, lookupKV]
    · simp [setKV, h, lookupKV, ih]

/-! ### C1, C3, C4: the Policy A consumption state machine -/

/-- A record marked consumed at instant `now`, as the fresh-activation
branch of `ActivationDatabase.verify_code` (lines 116-118) builds it. -/
def consumedAt (now : Int) (info : ActivationServer.CodeInfo) : ActivationServer.CodeInfo :=
  { info with activated := true, activated_at := some now }

/-- The database after `verify_code` consumes `code` at instant `now`. -/
def dbAfterConsume (st : ActivationServer.ServerState) (now : Int) (code : String)
    (info : ActivationServer.CodeInfo) : ActivationServer.Db :=
  { st.db with codes := setKV (sha256HexOfString code) (consumedAt now info) st.db.codes }

/-- C1: Policy A first consumption.  For every code whose record is present
in the store with consumption flag `activated = false`, `verify_code`
(with a working file write) marks the record consumed at the current
instant, persists the updated database, and returns valid with expiry
equal to the consumption time plus `duration_days` days. -/
theorem policyA_first_consumption (st : ActivationServer.ServerState) (now : Int)
    (code : String) (info : ActivationServer.CodeInfo)
    (hlk : lookupKV (sha256HexOfString code) st.db.codes = some info)
    (hact : info.activated = false) :
    ActivationServer.verify_code st true now code =
      .ok ({ valid := true,
             message := "激活成功！(" ++ info.type ++ ", 有效期" ++
                        toString info.duration_days ++ "天)",
             type := some info.type, activated_at := some now,
             expire_at := some (now + info.duration_days * 86400) },
           { db := dbAfterConsume st now code info, saved := dbAfterConsume st now code info })
      ∧ lookupKV (sha256HexOfString code) (dbAfterConsume st now code info).codes =
          some (consumedAt now info) := by
  constructor
  · simp [ActivationServer.verify_code, hlk, hact, ActivationServer.save_database,
      dbAfterConsume, consumedAt]
  · exact lookupKV_setKV_self _ _ _

def c1info : ActivationServer.CodeInfo :=
  { code := "C1CODE", type := "月度版", duration_days := 30, notes := "", generated_at := 0,
    activated := false, activated_at := none, device_id := none }

def c1db : ActivationServer.Db :=
  { codes := [(sha256HexOfString ("C1CODE"), c1info)], logs := [] }

def c1st : ActivationServer.ServerState := { db := c1db, saved := c1db }

theorem policyA_first_consumption_witness :
    lookupKV (sha256HexOfString ("C1CODE")) c1st.db.codes = some c1info ∧
    c1info.activated = false ∧
    (ActivationServer.verify_code c1st true 5 ("C1CODE") =
      .ok ({ valid := true,
             message := "激活成功！(" ++ c1info.type ++ ", 有效期" ++
                        toString c1info.duration_days ++ "天)",
             type := some c1info.type, activated_at := some 5,
             expire_at := some (5 + c1info.duration_days * 86400) },
           { db := dbAfterConsume c1st 5 ("C1CODE") c1info,
             saved := dbAfterConsume c1st 5 ("C1CODE") c1info })
      ∧ lookupKV (sha256HexOfString ("C1CODE")) (dbAfterConsume c1st 5 ("C1CODE") c1info).codes =
          some (consumedAt 5 c1info)) :=
  ⟨by decide, by decide, policyA_first_consumption c1st 5 ("C1CODE") c1info (by decide) (by decide)⟩

def c3info : ActivationServer.CodeInfo :=
  { code := "C3CODE", type := "永久版", duration_days := 0, notes := "", generated_at := 0,
    activated := true, activated_at := some 1000, device_id := none }

def c3db : ActivationServer.Db :=
  { codes := [(sha256HexOfString ("C3CODE"), c3info)], logs := [] }

def c3st : ActivationServer.ServerState := { db := c3db, saved := c3db }

/-- C3 (code evaluation at the failing input): a Policy-A record with
`duration_days = 0`, consumed at instant 1000, is reported EXPIRED by the
very next verify (instant 1001): the code computes
`expire_at = activated_at + 0 days` and `now > expire_at` then holds, so a
duration-0 code expires immediately after consumption instead of never
expiring, and no Policy-A response ever omits a finite expiry. -/
theorem policyA_duration_zero_expires_immediately :
    c3info.duration_days = 0 ∧ c3info.activated = true ∧ c3info.activated_at = some 1000 ∧
    ActivationServer.verify_code c3st true 1001 ("C3CODE") =
      .ok ({ valid := false, message := "激活码已过期", type := some ("永久版") }, c3st) := by
  refine ⟨rfl, rfl, rfl, ?_⟩
  decide


/-- C4: idempotent re-verification.  For every Policy-A record already
consumed at instant `t0` with duration `d` days, a verify at any instant
strictly before `t0 + d` days returns valid with exactly the expiry
`t0 + d` days — the same value the first consumption reported (C1) — and
leaves the server state untouched, so the expiry is never extended. -/
theorem policyA_reverify_same_expiry (st : ActivationServer.ServerState) (saveOk : Bool)
    (now : Int) (code : String) (info : ActivationServer.CodeInfo) (t0 : Int)
    (hlk : lookupKV (sha256HexOfString code) st.db.codes = some info)
    (hact : info.activated = true)
    (hat : info.activated_at = some t0)
    (hwin : now < t0 + info.duration_days * 86400) :
    ActivationServer.verify_code st saveOk now code =
      .ok ({ valid := true, message := "激活码有效", type := some info.type,
             activated_at := some t0,
             expire_at := some (t0 + info.duration_days * 86400) }, st) := by
  have hng : ¬ now > t0 + info.duration_days * 86400 := by omega
  simp [ActivationServer.verify_code, hlk, hact, hat, hng]

def c4info : ActivationServer.CodeInfo :=
  { code := "C4CODE", type := "月度版", duration_days := 30, notes := "", generated_at := 0,
    activated := true, activated_at := some 1000, device_id := none }

def c4db : ActivationServer.Db :=
  { codes := [(sha256HexOfString ("C4CODE"), c4info)], logs := [] }

def c4st : ActivationServer.ServerState := { db := c4db, saved := c4db }

theorem policyA_reverify_same_expiry_witness :
    lookupKV (sha256HexOfString ("C4CODE")) c4st.db.codes = some c4info ∧
    c4info.activated = true ∧ c4info.activated_at = some 1000 ∧
    ((1234567 : Int) < 1000 + c4info.duration_days * 86400) ∧
    ActivationServer.verify_code c4st false 1234567 ("C4CODE") =
      .ok ({ valid := true, message := "激活码有效", type := some c4info.type,
             activated_at := some 1000,
             expire_at := some (1000 + c4info.duration_days * 86400) }, c4st) :=
  ⟨by decide, by decide, by decide, by decide,
   policyA_reverify_same_expiry c4st false 1234567 ("C4CODE") c4info 1000
     (by decide) (by decide) (by decide) (by decide)⟩

/-! ### C7: the signature function -/

/-- The signature as §4.1/§8 of the spec word it: the first 16 hex
characters of the HMAC-SHA256 hex digest of the message under the secret,
upper-cased. -/
def specSignature (secret message : String) : String :=
  pyUpper (strTake 16 (hexdigestStr (hmacSha256Bytes (strBytes secret) (strBytes message))))

theorem bytesHexChars_length (bs : List Nat) : (bytesHexChars bs).length = 2 * bs.length := by
  induction bs with
  | nil => rfl
  | cons b tl ih =>
    simp only [bytesHexChars, List.flatMap_cons, List.length_append, List.length_cons,
      List.length_nil] at *
    omega

theorem sha256Bytes_length (msg : List Nat) : (sha256Bytes msg).length = 32 := by
  simp [sha256Bytes, wordBytes]

theorem hmacSha256Bytes_length (key msg : List Nat) : (hmacSha256Bytes key msg).length = 32 := by
  simp only [hmacSha256Bytes]
  exact sha256Bytes_length _

/-- C7: for every message and secret, `generate_signature` equals the
spec's formula (first 16 hex chars of HMAC-SHA256, upper-cased) — it is a
pure function, hence deterministic — and its output is always exactly 16
characters long regardless of input length; in particular this holds at
the spec's concrete example, secret "K" and message
"SIQIU-D007-250101-AB12". -/
theorem signature_first16_hex_upper :
    (∀ message secret : String,
       generate_signature secret message = specSignature secret message ∧
       (generate_signature secret message).length = 16) ∧
    generate_signature ("K") ("SIQIU-D007-250101-AB12") =
      specSignature ("K") ("SIQIU-D007-250101-AB12") ∧
    (generate_signature ("K") ("SIQIU-D007-250101-AB12")).length = 16 := by
  have key : ∀ message secret : String,
      generate_signature secret message = specSignature secret message ∧
      (generate_signature secret message).length = 16 := by
    intro message secret
    refine ⟨rfl, ?_⟩
    have h64 : (bytesHexChars (hmacSha256Bytes (strBytes secret) (strBytes message))).length = 64 := by
      rw [bytesHexChars_length, hmacSha256Bytes_length]
    simp [generate_signature, pyUpper, strTake, hexdigestStr, String.length, h64]
  exact ⟨key, (key _ _).1, (key _ _).2⟩

/-! ### C8: malformed input -/

theorem parse5_eq_none (code : String) (h : (splitOnDash code).length ≠ 5) :
    parse5 code = none := by
  unfold parse5
  generalize hs : splitOnDash code = l at h ⊢
  rcases l with _ | ⟨a, _ | ⟨b, _ | ⟨c, _ | ⟨d, _ | ⟨e, _ | ⟨f, rest⟩⟩⟩⟩⟩⟩
  all_goals first | rfl | simp at h

/-- C8: every input whose normalized form does not split on the dash into
exactly 5 fields is rejected by both servers with the format-error class
of message (`激活码格式错误`, or `激活码不能为空` when the normalized code
is empty — the spec's §7 counts both as `FormatError`), with `valid =
false`; the response does not depend on the store (no lookup), the store
is not mutated, and the message is distinct from the signature-failure,
unknown-code and expired messages. -/
theorem malformed_code_rejected (raw : String)
    (hsplit : (splitOnDash (pyNormalize raw)).length ≠ 5) :
    (∀ file : Option CloudServer.Db,
       (CloudServer.verify_code file raw).1 = (CloudServer.verify_code none raw).1 ∧
       (CloudServer.verify_code file raw).2 = file ∧
       (CloudServer.verify_code file raw).1.2.valid = false ∧
       (CloudServer.verify_code file raw).1.2.message =
         (if pyNormalize raw = "" then "激活码不能为空" else "激活码格式错误") ∧
       (CloudServer.verify_code file raw).1.2.message ≠ "激活码无效（签名验证失败）" ∧
       (CloudServer.verify_code file raw).1.2.message ≠ "激活码类型错误") ∧
    (∀ (secret : String) (st : ActivationServer.ServerState) (saveOk : Bool) (now : Int),
       (ActivationServer.verify_activation secret st saveOk now raw).1 =
         (ActivationServer.verify_activation secret ⟨⟨[], []⟩, ⟨[], []⟩⟩ true 0 raw).1 ∧
       (ActivationServer.verify_activation secret st saveOk now raw).2 = st ∧
       (ActivationServer.verify_activation secret st saveOk now raw).1.2.valid = false ∧
       (ActivationServer.verify_activation secret st saveOk now raw).1.2.message =
         (if pyNormalize raw = "" then "激活码不能为空" else "激活码格式错误") ∧
       (ActivationServer.verify_activation secret st saveOk now raw).1.2.message ≠
         "激活码签名验证失败" ∧
       (ActivationServer.verify_activation secret st saveOk now raw).1.2.message ≠
         "激活码不存在" ∧
       (ActivationServer.verify_activation secret st saveOk now raw).1.2.message ≠
         "激活码已过期") := by
  have hp5 : parse5 (pyNormalize raw) = none := parse5_eq_none _ hsplit
  by_cases hc : pyNormalize raw = ""
  · constructor
    · intro file
      simp [CloudServer.verify_code, hc, hp5]
    · intro secret st saveOk now
      simp [ActivationServer.verify_activation, hc, hp5]
  · constructor
    · intro file
      simp [CloudServer.verify_code, hc, hp5]
    · intro secret st saveOk now
      simp [ActivationServer.verify_activation, hc, hp5]

theorem malformed_code_rejected_witness :
    (splitOnDash (pyNormalize ("SIQIU-D007-NOTFIVE"))).length ≠ 5 ∧
    ((∀ file : Option CloudServer.Db,
       (CloudServer.verify_code file ("SIQIU-D007-NOTFIVE")).1 =
         (CloudServer.verify_code none ("SIQIU-D007-NOTFIVE")).1 ∧
       (CloudServer.verify_code file ("SIQIU-D007-NOTFIVE")).2 = file ∧
       (CloudServer.verify_code file ("SIQIU-D007-NOTFIVE")).1.2.valid = false ∧
       (CloudServer.verify_code file ("SIQIU-D007-NOTFIVE")).1.2.message =
         (if pyNormalize ("SIQIU-D007-NOTFIVE") = "" then "激活码不能为空" else "激活码格式错误") ∧
       (CloudServer.verify_code file ("SIQIU-D007-NOTFIVE")).1.2.message ≠
         "激活码无效（签名验证失败）" ∧
       (CloudServer.verify_code file ("SIQIU-D007-NOTFIVE")).1.2.message ≠ "激活码类型错误") ∧
    (∀ (secret : String) (st : ActivationServer.ServerState) (saveOk : Bool) (now : Int),
       (ActivationServer.verify_activation secret st saveOk now ("SIQIU-D007-NOTFIVE")).1 =
         (ActivationServer.verify_activation secret ⟨⟨[], []⟩, ⟨[], []⟩⟩ true 0
           ("SIQIU-D007-NOTFIVE")).1 ∧
       (ActivationServer.verify_activation secret st saveOk now ("SIQIU-D007-NOTFIVE")).2 = st ∧
       (ActivationServer.verify_activation secret st saveOk now
           ("SIQIU-D007-NOTFIVE")).1.2.valid = false ∧
       (ActivationServer.verify_activation secret st saveOk now ("SIQIU-D007-NOTFIVE")).1.2.message =
         (if pyNormalize ("SIQIU-D007-NOTFIVE") = "" then "激活码不能为空" else "激活码格式错误") ∧
       (ActivationServer.verify_activation secret st saveOk now ("SIQIU-D007-NOTFIVE")).1.2.message ≠
         "激活码签名验证失败" ∧
       (ActivationServer.verify_activation secret st saveOk now ("SIQIU-D007-NOTFIVE")).1.2.message ≠
         "激活码不存在" ∧
       (ActivationServer.verify_activation secret st saveOk now ("SIQIU-D007-NOTFIVE")).1.2.message ≠
         "激活码已过期")) :=
  ⟨by decide, malformed_code_rejected ("SIQIU-D007-NOTFIVE") (by decide)⟩

/-! ### C2, C10: Policy B verify/activate -/

theorem splitOnDash_empty : splitOnDash ("") = [""] := by decide

theorem load_database_some (db : CloudServer.Db) : CloudServer.load_database (some db) = db := rfl

/-- A signature-valid code whose edition token "XXXX" is neither "P000"
nor "D"-prefixed. -/
def c2xcode : String :=
  "SIQIU-XXXX-20250101-ABCD-" ++
    generate_signature CloudServer.SECRET_KEY ("SIQIU-XXXX-20250101-ABCD")

/-- C2 (counterexample): `c2xcode` carries a correct signature (its fifth
field is exactly `generate_signature` of the first four) and has no record
in the (empty) store, yet Policy B `verify_code` returns `valid = false`
(`激活码类型错误`), not `valid = true` — refuting the claim's "for every
code string with a correct signature and no record". -/
theorem policyB_unknown_token_not_valid_cex :
    splitOnDash c2xcode =
      ["SIQIU", "XXXX", "20250101", "ABCD",
       generate_signature CloudServer.SECRET_KEY
         ("SIQIU" ++ "-" ++ "XXXX" ++ "-" ++ "20250101" ++ "-" ++ "ABCD")] ∧
    lookupKV (CloudServer.hash_code c2xcode) (CloudServer.load_database none).codes = none ∧
    (CloudServer.verify_code none c2xcode).1 =
      (400, { valid := false, message := "激活码类型错误" }) := by
  refine ⟨by decide, rfl, by decide⟩

/-- C2 (amended): for every code string with a correct signature, no
record in the store, and a RECOGNIZED edition token — "P000" (permanent,
0 days) or "D" followed by an `int()`-parsable numeral — Policy B
`verify_code` returns valid with edition and duration decoded only from
the token and leaves the store unchanged; and after `activate_code` has
run on that code, a subsequent `verify_code` (hence, the route being a
pure function of the file, every subsequent one) returns invalid with the
already-used message. -/
theorem policyB_unregistered_verify_then_consume
    (file : Option CloudServer.Db) (now : Int) (ip : String) (code : String)
    (pfx tok ts salt : String) (days : Int)
    (hn : pyNormalize code = code)
    (hsplit : splitOnDash code =
      [pfx, tok, ts, salt,
       generate_signature CloudServer.SECRET_KEY
         (pfx ++ "-" ++ tok ++ "-" ++ ts ++ "-" ++ salt)])
    (habs : lookupKV (CloudServer.hash_code code) (CloudServer.load_database file).codes = none)
    (htok : (tok = "P000" ∧ days = 0) ∨
            (startsWithD tok = true ∧ pyInt (strTail tok) = some days)) :
    CloudServer.verify_code file code =
      ((200, { valid := true,
               type := some (if tok = "P000" then "永久" else "试用"),
               days := some days,
               message := if days = 0 then "永久激活码"
                          else toString days ++ "天试用激活码" }), file) ∧
    (CloudServer.activate_code file true now ip code).1 =
      (200, { success := true, message := "激活码已标记为使用" }) ∧
    (CloudServer.verify_code (CloudServer.activate_code file true now ip code).2 code).1 =
      (400, { valid := false,
              message := "激活码已被使用（使用时间：" ++ toString now ++ "）" }) := by
  have hne : code ≠ "" := by
    intro h
    rw [h, splitOnDash_empty] at hsplit
    have hl := congrArg List.length hsplit
    simp at hl
  have hp5 : parse5 code =
      some (pfx, tok, ts, salt,
        generate_signature CloudServer.SECRET_KEY
          (pfx ++ "-" ++ tok ++ "-" ++ ts ++ "-" ++ salt)) := by
    unfold parse5
    rw [hsplit]
  rcases htok with ⟨hP, hd⟩ | ⟨hD, hint⟩
  · subst hP hd
    refine ⟨?_, ?_, ?_⟩ <;>
      simp [CloudServer.verify_code, CloudServer.activate_code, load_database_some,
        hn, hne, hp5, habs, lookupKV_setKV_self, CloudServer.usedAtStr]
  · have hPne : tok ≠ "P000" := by
      intro h
      rw [h] at hD
      exact absurd hD (by decide)
    refine ⟨?_, ?_, ?_⟩ <;>
      simp [CloudServer.verify_code, CloudServer.activate_code, load_database_some,
        hn, hne, hp5, habs, lookupKV_setKV_self, CloudServer.usedAtStr, hPne, hD, hint]

/-- A signature-valid permanent ("P000") code used as the C2 witness input. -/
def c2code : String :=
  "SIQIU-P000-20250101-ABCD-" ++
    generate_signature CloudServer.SECRET_KEY ("SIQIU-P000-20250101-ABCD")

theorem policyB_unregistered_verify_then_consume_witness :
    pyNormalize c2code = c2code ∧
    splitOnDash c2code =
      ["SIQIU", "P000", "20250101", "ABCD",
       generate_signature CloudServer.SECRET_KEY
         ("SIQIU" ++ "-" ++ "P000" ++ "-" ++ "20250101" ++ "-" ++ "ABCD")] ∧
    lookupKV (CloudServer.hash_code c2code) (CloudServer.load_database none).codes = none ∧
    ((("P000" : String) = "P000" ∧ (0 : Int) = 0) ∨
     (startsWithD ("P000") = true ∧ pyInt (strTail ("P000")) = some 0)) ∧
    (CloudServer.verify_code none c2code =
      ((200, { valid := true,
               type := some (if ("P000" : String) = "P000" then "永久" else "试用"),
               days := some (0 : Int),
               message := if (0 : Int) = 0 then "永久激活码"
                          else toString (0 : Int) ++ "天试用激活码" }), none) ∧
    (CloudServer.activate_code none true 777 ("1.2.3.4") c2code).1 =
      (200, { success := true, message := "激活码已标记为使用" }) ∧
    (CloudServer.verify_code (CloudServer.activate_code none true 777 ("1.2.3.4") c2code).2
        c2code).1 =
      (400, { valid := false,
              message := "激活码已被使用（使用时间：" ++ toString (777 : Int) ++ "）" })) :=
  ⟨by decide, by decide, rfl, by decide,
   policyB_unregistered_verify_then_consume none 777 ("1.2.3.4") c2code
     ("SIQIU") ("P000") ("20250101") ("ABCD") 0
     (by decide) (by decide) rfl (by decide)⟩

/-- A signature-valid code whose edition token "D+5" is not "D" followed
by digits, yet is accepted by `int()`. -/
def c10code : String :=
  "SIQIU-D+5-20250101-ABCD-" ++
    generate_signature CloudServer.SECRET_KEY ("SIQIU-D+5-20250101-ABCD")

/-- C10 (counterexample): `c10code` has a correct signature and its
edition token "D+5" is neither "P000" nor "D" followed by digits (its
second character is a plus sign), yet Policy B `verify_code` returns
`valid = true` with 5 days, because Python's `int("+5")` succeeds — the
claim's "never returns valid=true" is false as stated. -/
theorem signed_plus_token_accepted_cex :
    splitOnDash c10code =
      ["SIQIU", "D+5", "20250101", "ABCD",
       generate_signature CloudServer.SECRET_KEY
         ("SIQIU" ++ "-" ++ "D+5" ++ "-" ++ "20250101" ++ "-" ++ "ABCD")] ∧
    ("D+5" : String) ≠ "P000" ∧
    (strTail ("D+5")).data.all Char.isDigit = false ∧
    lookupKV (CloudServer.hash_code c10code) (CloudServer.load_database none).codes = none ∧
    (CloudServer.verify_code none c10code).1 =
      (200, { valid := true, type := some ("试用"), days := some 5,
              message := "5天试用激活码" }) := by
  refine ⟨by decide, by decide, by decide, rfl, by decide⟩

/-- C10 (amended): under Policy B, a correct signature is not sufficient —
for every (ASCII) input whose normalized form splits into 5 fields with a
correct signature, if the edition token is neither "P000" nor "D" followed
by a numeral accepted by Python's `int()` (optional sign/underscore
syntax), `verify_code` never returns valid: an unparsable "D" token yields
the 500 server-error result and any other unrecognized token the 400
type-error result, both with `valid = false`. -/
theorem unrecognized_token_never_valid
    (file : Option CloudServer.Db) (raw : String) (pfx tok ts salt sig : String)
    (hsplit : splitOnDash (pyNormalize raw) = [pfx, tok, ts, salt, sig])
    (hsig : sig = generate_signature CloudServer.SECRET_KEY
      (pfx ++ "-" ++ tok ++ "-" ++ ts ++ "-" ++ salt))
    (hPne : tok ≠ "P000")
    (hD : startsWithD tok = true → pyInt (strTail tok) = none)
    (_hAscii : (strTail tok).data.all (fun c => c.toNat < 128) = true) :
    (CloudServer.verify_code file raw).1.2.valid = false := by
  have hne : pyNormalize raw ≠ "" := by
    intro h
    rw [h, splitOnDash_empty] at hsplit
    have hl := congrArg List.length hsplit
    simp at hl
  have hp5 : parse5 (pyNormalize raw) = some (pfx, tok, ts, salt, sig) := by
    unfold parse5
    rw [hsplit]
  rcases hlk : lookupKV (CloudServer.hash_code (pyNormalize raw))
      (CloudServer.load_database file).codes with _ | ci
  · cases hSd : startsWithD tok
    · simp [CloudServer.verify_code, hne, hp5, hsig, hPne, hlk, hSd]
    · simp [CloudServer.verify_code, hne, hp5, hsig, hPne, hlk, hSd, hD hSd]
  · cases hu : ci.used.getD false
    · cases hSd : startsWithD tok
      · simp [CloudServer.verify_code, hne, hp5, hsig, hPne, hlk, hu, hSd]
      · simp [CloudServer.verify_code, hne, hp5, hsig, hPne, hlk, hu, hSd, hD hSd]
    · simp [CloudServer.verify_code, hne, hp5, hsig, hlk, hu]

/-- A signature-valid code with token "DX", whose `int("X")` fails. -/
def c10wcode : String :=
  "SIQIU-DX-20250101-ABCD-" ++
    generate_signature CloudServer.SECRET_KEY ("SIQIU-DX-20250101-ABCD")

theorem unrecognized_token_never_valid_witness :
    splitOnDash (pyNormalize c10wcode) =
      ["SIQIU", "DX", "20250101", "ABCD",
       generate_signature CloudServer.SECRET_KEY
         ("SIQIU" ++ "-" ++ "DX" ++ "-" ++ "20250101" ++ "-" ++ "ABCD")] ∧
    ("DX" : String) ≠ "P000" ∧
    (startsWithD ("DX") = true → pyInt (strTail ("DX")) = none) ∧
    (strTail ("DX")).data.all (fun c => c.toNat < 128) = true ∧
    (CloudServer.verify_code none c10wcode).1.2.valid = false :=
  ⟨by decide, by decide, by decide, by decide,
   unrecognized_token_never_valid none c10wcode ("SIQIU") ("DX") ("20250101") ("ABCD")
     (generate_signature CloudServer.SECRET_KEY
       ("SIQIU" ++ "-" ++ "DX" ++ "-" ++ "20250101" ++ "-" ++ "ABCD"))
     (by decide) rfl (by decide) (by decide) (by decide)⟩

/-! ### C5: persistence failures -/

/-- A signature-valid permanent code used as the C5 cloud-side input. -/
def c5code : String :=
  "SIQIU-P000-20250101-ABCE-" ++
    generate_signature CloudServer.SECRET_KEY ("SIQIU-P000-20250101-ABCE")

def c5info : ActivationServer.CodeInfo :=
  { code := "C5CODE", type := "试用版", duration_days := 7, notes := "", generated_at := 0,
    activated := false, activated_at := none, device_id := none }

def c5adb : ActivationServer.Db :=
  { codes := [(sha256HexOfString ("C5CODE"), c5info)], logs := [] }

def c5ast : ActivationServer.ServerState := { db := c5adb, saved := c5adb }

/-- C5 (counterexample): persistence failures ARE masked as validity
results.  With an unreadable store (`none`), the Policy B verify of a
signature-valid code returns the normal business outcome `200/valid=true`
instead of an internal error; and with a failing file write
(`saveOk = false`), the Policy A `verify_code` still reports activation
success (valid = true) while the persisted file (`saved`) is left
unchanged — a mutating operation reporting success without persistence. -/
theorem persistence_failure_masked_cex :
    (CloudServer.verify_code none c5code).1 =
      (200, { valid := true, type := some ("永久"), days := some 0,
              message := "永久激活码" }) ∧
    ActivationServer.verify_code c5ast false 9 ("C5CODE") =
      .ok ({ valid := true, message := "激活成功！(试用版, 有效期7天)",
             type := some ("试用版"), activated_at := some 9,
             expire_at := some (9 + 7 * 86400) },
           { db := { codes := setKV (sha256HexOfString ("C5CODE"))
                       ({ c5info with activated := true, activated_at := some 9 })
                       c5adb.codes,
                     logs := [] },
             saved := c5adb }) := by
  refine ⟨by decide, by decide⟩

/-- Past the signature check against an unreadable file, Policy B behaves
exactly as over an empty database (the `except` branch of
`load_database`). -/
theorem cloud_verify_read_fail_as_empty (raw : String) :
    (CloudServer.verify_code none raw).1 =
      (CloudServer.verify_code (some { codes := [] }) raw).1 := by
  by_cases hc : pyNormalize raw = ""
  · simp [CloudServer.verify_code, hc]
  · rcases hp : parse5 (pyNormalize raw) with _ | ⟨a, b, c, d, e⟩
    · simp [CloudServer.verify_code, hc, hp]
    · by_cases hs : e ≠ generate_signature CloudServer.SECRET_KEY
          (a ++ "-" ++ b ++ "-" ++ c ++ "-" ++ d)
      · simp [CloudServer.verify_code, hc, hp, hs]
      · push_neg at hs
        by_cases hb : b = "P000"
        · simp [CloudServer.verify_code, CloudServer.load_database, lookupKV,
            hc, hp, hs, hb]
        · cases hSd : startsWithD b
          · simp [CloudServer.verify_code, CloudServer.load_database, lookupKV,
              hc, hp, hs, hb, hSd]
          · rcases hpi : pyInt (strTail b) with _ | dys
            · simp [CloudServer.verify_code, CloudServer.load_database, lookupKV,
                hc, hp, hs, hb, hSd, hpi]
            · simp [CloudServer.verify_code, CloudServer.load_database, lookupKV,
                hc, hp, hs, hb, hSd, hpi]

/-- C5 (amended): store I/O failures are masked, never surfaced as
internal errors by the operations themselves.  (1) Policy B `verify_code`
with an unreadable store returns exactly the response it would return over
an empty database (the silent `except` fallback of `load_database`) — a
normal business outcome, not a 500.  (2) Policy A `verify_code` with a
failing file write returns exactly the response of a successful write
(`save_database` swallows the exception), and (3) leaves the persisted
file unchanged — so a mutating verify reports success without its state
change being persisted. -/
theorem persistence_failure_masking :
    (∀ raw : String,
       (CloudServer.verify_code none raw).1 =
         (CloudServer.verify_code (some { codes := [] }) raw).1) ∧
    (∀ (st : ActivationServer.ServerState) (now : Int) (code : String),
       (ActivationServer.verify_code st false now code).map Prod.fst =
         (ActivationServer.verify_code st true now code).map Prod.fst) ∧
    (∀ (st : ActivationServer.ServerState) (now : Int) (code : String)
       (r : ActivationServer.VerifyResult) (st2 : ActivationServer.ServerState),
       ActivationServer.verify_code st false now code = .ok (r, st2) →
       st2.saved = st.saved) := by
  refine ⟨cloud_verify_read_fail_as_empty, ?_, ?_⟩
  · intro st now code
    rcases hlk : lookupKV (sha256HexOfString code) st.db.codes with _ | info
    · simp [ActivationServer.verify_code, hlk, Except.map]
    · cases hact : info.activated
      · simp [ActivationServer.verify_code, hlk, hact, ActivationServer.save_database,
          Except.map]
      · rcases hat : info.activated_at with _ | t0
        · simp [ActivationServer.verify_code, hlk, hact, hat, Except.map]
        · by_cases hexp : now > t0 + info.duration_days * 86400
          · simp [ActivationServer.verify_code, hlk, hact, hat, hexp, Except.map]
          · simp [ActivationServer.verify_code, hlk, hact, hat, hexp, Except.map]
  · intro st now code r st2 h
    rcases hlk : lookupKV (sha256HexOfString code) st.db.codes with _ | info <;>
      simp only [ActivationServer.verify_code, hlk] at h
    · simp only [Except.ok.injEq, Prod.mk.injEq] at h
      rw [← h.2]
    · cases hact : info.activated <;> simp only [hact] at h
      · simp [ActivationServer.save_database] at h
        rw [← h.2]
      · rcases hat : info.activated_at with _ | t0 <;> simp only [hat] at h
        · simp at h
        · by_cases hexp : now > t0 + info.duration_days * 86400 <;>
            simp only [hexp, if_true, if_false] at h <;>
            simp at h <;> rw [← h.2]

def c5resp : ActivationServer.VerifyResult :=
  { valid := true, message := "激活成功！(试用版, 有效期7天)", type := some ("试用版"),
    activated_at := some 9, expire_at := some (9 + 7 * 86400) }

def c5st2 : ActivationServer.ServerState :=
  { db := { codes := setKV (sha256HexOfString ("C5CODE"))
              ({ c5info with activated := true, activated_at := some 9 }) c5adb.codes,
            logs := [] },
    saved := c5adb }

theorem persistence_failure_masking_witness :
    ActivationServer.verify_code c5ast false 9 ("C5CODE") = .ok (c5resp, c5st2) ∧
    c5st2.saved = c5ast.saved :=
  ⟨by decide,
   persistence_failure_masking.2.2 c5ast 9 ("C5CODE") c5resp c5st2 (by decide)⟩

/-! ### C6: repeated activation -/

def c6info : CloudServer.CodeInfo :=
  { type := "试用", code := some ("ABC"), created_at := some 50, used := some true,
    used_at := some 100, used_by := some ("1.1.1.1"), days := some 7 }

def c6db : CloudServer.Db := { codes := [(CloudServer.hash_code ("ABC"), c6info)] }

/-- C6 (counterexample): the record for code "ABC" is already consumed
(`used_at = 100`, `used_by = "1.1.1.1"`); a further `activate_code` at
instant 200 from "9.9.9.9" succeeds — but the stored record afterwards
carries `used_at = 200` and `used_by = "9.9.9.9"`: the original first
consumption timestamp and consumer identity are overwritten, refuting the
claim's "does not overwrite used_at or used_by". -/
theorem activate_overwrite_cex :
    (lookupKV (CloudServer.hash_code ("ABC"))
       (CloudServer.load_database (some c6db)).codes).map (fun ci => ci.used) =
      some (some true) ∧
    (CloudServer.activate_code (some c6db) true 200 ("9.9.9.9") ("ABC")).1 =
      (200, { success := true, message := "激活码已标记为使用" }) ∧
    ((CloudServer.activate_code (some c6db) true 200 ("9.9.9.9") ("ABC")).2.map (fun db =>
       (lookupKV (CloudServer.hash_code ("ABC")) db.codes).map
         (fun ci => (ci.used_at, ci.used_by)))) =
      some (some (some 200, some ("9.9.9.9"))) ∧
    (some (200 : Int), some ("9.9.9.9" : String)) ≠
      (c6info.used_at, c6info.used_by) := by
  refine ⟨by decide, by decide, by decide, by decide⟩

/-- C6 (amended): for every code whose record is already consumed, a
further `activate_code` call does not error (it returns 200/success), but
it OVERWRITES the consumption metadata: the stored record's `used_at` and
`used_by` become the current instant and the current caller identity (the
other fields of the record are preserved).  This matches the divergence
the spec itself flags ("reference behavior overwrites on repeat
activation"). -/
theorem activate_repeat_overwrites
    (file : Option CloudServer.Db) (now : Int) (ip : String) (code : String)
    (ci : CloudServer.CodeInfo)
    (hn : pyNormalize code = code) (hne : code ≠ "")
    (hlk : lookupKV (CloudServer.hash_code code) (CloudServer.load_database file).codes =
      some ci)
    (_hused : ci.used = some true) :
    CloudServer.activate_code file true now ip code =
      ((200, { success := true, message := "激活码已标记为使用" }),
       some { codes := setKV (CloudServer.hash_code code)
                ({ ci with used := some true, used_at := some now, used_by := some ip })
                (CloudServer.load_database file).codes }) := by
  simp [CloudServer.activate_code, hn, hne, hlk]

theorem activate_repeat_overwrites_witness :
    pyNormalize ("ABC") = "ABC" ∧ ("ABC" : String) ≠ "" ∧
    lookupKV (CloudServer.hash_code ("ABC"))
        (CloudServer.load_database (some c6db)).codes = some c6info ∧
    c6info.used = some true ∧
    CloudServer.activate_code (some c6db) true 200 ("9.9.9.9") ("ABC") =
      ((200, { success := true, message := "激活码已标记为使用" }),
       some { codes := setKV (CloudServer.hash_code ("ABC"))
                ({ c6info with used := some true, used_at := some 200, used_by := some ("9.9.9.9") })
                (CloudServer.load_database (some c6db)).codes }) :=
  ⟨by decide, by decide, by decide, by decide,
   activate_repeat_overwrites (some c6db) 200 ("9.9.9.9") ("ABC") c6info
     (by decide) (by decide) (by decide) (by decide)⟩
